import Mathlib

set_option maxRecDepth 8000

/-!
Verification of the ShinyUkraine data-pipeline core against its specification.

The definitions below are a shallow embedding of `Code/DataPipeline/ETL.py`,
`Code/DataPipeline/pipeline_validation.py`, `Code/DataPipeline/pipeline_monitoring.py`
and `Code/Shiny/server/lazy_loader.py`.  Python floats are modelled as rationals,
pandas DataFrames as a list of column names plus a list of rows of cells, the
DuckDB catalog as finite maps from names to tables, and wall-clock time as an
explicit rational parameter.
-/

/-- A pandas cell value: NaN, a string, a number (floats modelled as `ℚ`),
or a datetime (normalized to year/month/day, the fields `strptime` produces). -/
inductive Cell where
  | na : Cell
  | str : String → Cell
  | num : ℚ → Cell
  | bool : Bool → Cell
  | date : Nat → Nat → Nat → Cell
  deriving DecidableEq, Repr

/-- Python whitespace: the characters matched by the regex class `\s` and
stripped by `str.strip()` (ASCII range). -/
def pyIsSpace (c : Char) : Bool :=
  c == ' ' || c == '\t' || c == '\n' || c == '\r' || c == '\x0b' || c == '\x0c'

/-- `str.strip()` on a character list: drop whitespace from both ends. -/
def trimChars (l : List Char) : List Char :=
  ((l.dropWhile pyIsSpace).reverse.dropWhile pyIsSpace).reverse

/-- `str.strip()` for strings. -/
def pyStrip (s : String) : String :=
  String.mk (trimChars s.data)

/-- Fuelled worker for literal (non-regex) substring replacement, the semantics
of `Series.str.replace(pat, rep)` under the pandas ≥ 2.0 default `regex=False`.
The fuel is instantiated with the input length, which always suffices because
every step consumes at least one input character when the pattern is nonempty. -/
def replaceLitAux (pat rep : List Char) : Nat → List Char → List Char
  | 0, l => l
  | _, [] => []
  | fuel + 1, c :: rest =>
    if !pat.isEmpty && pat.isPrefixOf (c :: rest) then
      rep ++ replaceLitAux pat rep fuel ((c :: rest).drop pat.length)
    else
      c :: replaceLitAux pat rep fuel rest

/-- Literal substring replacement on strings (`str.replace` in Python,
`Series.str.replace(..., regex=False)` in pandas ≥ 2.0). -/
def pyReplaceLit (pat rep s : String) : String :=
  String.mk (replaceLitAux pat.data rep.data s.data.length s.data)

/-- Fuelled worker collapsing every maximal run of whitespace to one copy of
`repl`, the semantics of a `regex=True` replacement of `\s+`. -/
def collapseRunsAux (repl : Char) : Nat → List Char → List Char
  | 0, l => l
  | _, [] => []
  | fuel + 1, c :: rest =>
    if pyIsSpace c then
      repl :: collapseRunsAux repl fuel (rest.dropWhile pyIsSpace)
    else
      c :: collapseRunsAux repl fuel rest

/-- Collapse every whitespace run in a string to a single `repl` character. -/
def collapseRuns (repl : Char) (s : String) : String :=
  String.mk (collapseRunsAux repl s.data.length s.data)

/-- Render a rational the way Python renders the corresponding float in the
cases the pipeline meets (integral values get a trailing `.0`); non-integral
values are rendered as a fraction, an approximation that no configuration in
the repository exercises for header cells. -/
def ratToPyStr (q : ℚ) : String :=
  if q.den == 1 then toString q.num ++ ".0"
  else toString q.num ++ "/" ++ toString q.den

/-- `astype(str)` on a cell after `fillna("")`: NaN has already been replaced
by the empty string, so it renders as `""`. -/
def cellToStr : Cell → String
  | .na => ""
  | .str s => s
  | .num q => ratToPyStr q
  | .bool b => if b then "True" else "False"
  | .date y m d => toString y ++ "-" ++ toString m ++ "-" ++ toString d

/-- The string `" ".join(xs)` from Python. -/
def joinSpace : List String → String
  | [] => ""
  | [s] => s
  | s :: rest => s ++ " " ++ joinSpace rest

/-- The raw cell grid returned by `pd.read_excel(..., header=None)`: a fixed
column count (from `usecols`) and the rows of the selected window.  Short rows
stand for trailing missing cells, read back as NaN. -/
structure Grid where
  ncols : Nat
  rows : List (List Cell)
  deriving Repr

/-- A pandas DataFrame: ordered column labels plus rows of cells. -/
structure DataFrame where
  columns : List String
  rows : List (List Cell)
  deriving DecidableEq, Repr

/-- `df.iloc[:n].fillna("").astype(str).agg(" ".join, axis=0)` from
`ETLPipeline._extract`: fold the first rows down each column, joining the
stringified cells of every column with single spaces. -/
def aggJoinCols (ncols : Nat) : List (List Cell) → List String
  | [] => List.replicate ncols ""
  | [r] => (List.range ncols).map (fun j => cellToStr (r.getD j .na))
  | r :: rs =>
    List.zipWith (fun a b => a ++ " " ++ b)
      ((List.range ncols).map (fun j => cellToStr (r.getD j .na)))
      (aggJoinCols ncols rs)

/-- `ETLPipeline._extract`, from the point where the raw grid has been read:
build each column header from the first `number_header_rows` rows
(`fillna("") → astype(str) → " ".join → str.strip() → str.replace("\s+", " ")`,
the last one literal because `regex=` is not passed and pandas ≥ 2.0 defaults
to `regex=False`), then drop the header rows and reset the index. -/
def _extract (g : Grid) (numberHeaderRows : Nat) : DataFrame :=
  let headers := (aggJoinCols g.ncols (g.rows.take numberHeaderRows)).map
    (fun s => pyReplaceLit "\\s+" " " (pyStrip s))
  { columns := headers
    rows := (g.rows.drop numberHeaderRows).map
      (fun r => (List.range g.ncols).map (fun j => r.getD j .na)) }

/-- The header rule as the specification words it: join the first `n` cells of
column `j` (missing cells as `""`), collapse every internal whitespace run to a
single space, and trim.  Stated from the spec for comparison with `_extract`. -/
def headerPerSpec (g : Grid) (n j : Nat) : String :=
  pyStrip (collapseRuns ' '
    (joinSpace ((g.rows.take n).map (fun r => cellToStr (r.getD j .na)))))

/-! Country lookup table (`ETLPipeline._create_country_lookup`). -/

/-- The country-taxonomy YAML: category name → list of countries, plus the
reserved `country_codes` entry mapping country name → ISO3 code. -/
structure CountryTaxonomy where
  category_lists : List (String × List String)
  country_codes : List (String × String)
  deriving Repr

/-- The dict comprehension `{k: v for k, v in self.country_categories.items()
if k != "country_codes"}`. -/
def categoryLists (tax : CountryTaxonomy) : List (String × List String) :=
  tax.category_lists.filter (fun kv => kv.1 != "country_codes")

/-- Lexicographic code-point comparison of strings, the order Python's
`sorted` uses on `str`. -/
def strLeChars : List Char → List Char → Bool
  | [], _ => true
  | _ :: _, [] => false
  | a :: as, b :: bs =>
    if a == b then strLeChars as bs else Nat.blt a.toNat b.toNat

/-- `a <= b` for Python strings. -/
def pyStrLe (a b : String) : Bool :=
  strLeChars a.data b.data

/-- Insert into a sorted list, keeping earlier elements first on ties. -/
def insertSortedStr (x : String) : List String → List String
  | [] => [x]
  | y :: ys => if pyStrLe x y then x :: y :: ys else y :: insertSortedStr x ys

/-- Ascending stable sort, the behaviour of Python's `sorted`. -/
def pySortedStr : List String → List String
  | [] => []
  | x :: xs => insertSortedStr x (pySortedStr xs)

/-- `sorted(set(country for category in category_lists.values() for country in
category))`. -/
def allCountries (tax : CountryTaxonomy) : List String :=
  pySortedStr (((categoryLists tax).map Prod.snd).flatten.dedup)

/-- One row of the country lookup DataFrame: id, name, optional ISO3 code, one
boolean flag per non-reserved category, and the two special columns. -/
structure CountryRow where
  country_id : Nat
  country_name : String
  iso3_code : Option String
  category_flags : List (String × Bool)
  eu_member : Bool
  geographic_europe : Bool
  deriving DecidableEq, Repr

/-- `ETLPipeline._create_country_lookup`: ids 1..N over the alphabetically
sorted union of all category members, ISO3 via `dict.get` (None when missing),
a membership flag per category except the two specials, then
`EU_member = isin(EU_Member)` and
`geographic_europe = isin(Geographic_Europe) | EU_member`.  Returns `none` when
either special category is absent (Python raises `KeyError` there). -/
def _create_country_lookup (tax : CountryTaxonomy) : Option (List CountryRow) :=
  match (categoryLists tax).lookup "EU_Member",
      (categoryLists tax).lookup "Geographic_Europe" with
  | some euList, some geoList =>
    some ((allCountries tax).enum.map (fun p =>
      { country_id := p.1 + 1
        country_name := p.2
        iso3_code := tax.country_codes.lookup p.2
        category_flags :=
          ((categoryLists tax).filter (fun kv =>
            !(kv.1 == "Geographic_Europe") && !(kv.1 == "EU_Member"))).map
            (fun kv => (kv.1, kv.2.contains p.2))
        eu_member := euList.contains p.2
        geographic_europe := geoList.contains p.2 || euList.contains p.2 }))
  | _, _ => none

/-- The taxonomy used by the witness of the country-lookup invariant. -/
def witnessTaxonomy : CountryTaxonomy :=
  ⟨[("EU_Member", ["France"]), ("Geographic_Europe", ["Norway"]),
    ("Anglosphere", ["USA"])],
   [("France", "FRA"), ("USA", "USA")]⟩

/-! DuckDB catalog and `ETLPipeline._load` / `_initialize_country_lookup`. -/

/-- The DuckDB catalog as one connection sees it: the temporary views created
by `connection.register` (temp schema) and the persistent main-schema tables. -/
structure Store where
  views : List (String × DataFrame)
  tables : List (String × DataFrame)
  deriving DecidableEq, Repr

/-- `connection.register(name, df)`: create or replace a temporary view bound
to the given frame. -/
def registerView (st : Store) (name : String) (df : DataFrame) : Store :=
  { st with views := (name, df) :: st.views.filter (fun kv => kv.1 != name) }

/-- Name resolution for `FROM name`: DuckDB searches the temp schema
(registered views) before the main schema (tables). -/
def resolveRelation (st : Store) (name : String) : Option DataFrame :=
  match st.views.lookup name with
  | some df => some df
  | none => st.tables.lookup name

/-- `CREATE TABLE name AS SELECT * FROM name` as DuckDB executes it: a catalog
error (`none`) when a main-schema table of that name already exists — the
source uses plain `CREATE TABLE`, not `CREATE OR REPLACE TABLE` — otherwise
materialize the resolved relation as a new table. -/
def createTableAs (st : Store) (name : String) : Option Store :=
  if (st.tables.lookup name).isSome then none
  else
    match resolveRelation st name with
    | some df => some { st with tables := (name, df) :: st.tables }
    | none => none

/-- `ETLPipeline._load`: register the frame under the target name, then run
`CREATE TABLE {name} AS SELECT * FROM {name}`. -/
def _load (st : Store) (data : DataFrame) (name : String) : Option Store :=
  createTableAs (registerView st name data) name

/-- The cells of one country-lookup row, in the column order the builder
creates them. -/
def countryRowCells (r : CountryRow) : List Cell :=
  [Cell.num r.country_id, Cell.str r.country_name,
   (match r.iso3_code with | some c => Cell.str c | none => Cell.na)] ++
  r.category_flags.map (fun kv => Cell.bool kv.2) ++
  [Cell.bool r.eu_member, Cell.bool r.geographic_europe]

/-- The country-lookup rows as the DataFrame `duckdb.register` receives. -/
def lookupToDataFrame (rows : List CountryRow) : DataFrame :=
  { columns := ["country_id", "country_name", "iso3_code"] ++
      ((rows.head?.map (fun r => r.category_flags.map Prod.fst)).getD []) ++
      ["EU_member", "geographic_europe"]
    rows := rows.map countryRowCells }

/-- `ETLPipeline._initialize_country_lookup` (the Lean name drops a letter):
build the lookup frame, register it as `zz_country_lookup`, and run
`CREATE TABLE zz_country_lookup AS SELECT * FROM zz_country_lookup`. -/
def _init_country_lookup (tax : CountryTaxonomy) (st : Store) : Option Store :=
  match _create_country_lookup tax with
  | none => none
  | some rows =>
    createTableAs (registerView st "zz_country_lookup" (lookupToDataFrame rows))
      "zz_country_lookup"

/-! The transform engine (`ETLPipeline._transform` and its nine operators). -/

/-- Column datatypes appearing in `datatypes` configuration entries. -/
inductive DType where
  | dfloat : DType
  | dint : DType
  | dstr : DType
  deriving DecidableEq, Repr

/-- The `reshape` configuration dict (`type`, `id_vars`, `value_vars`,
`var_name`, `value_name`). -/
structure ReshapeSpec where
  rtype : String
  id_vars : List String
  value_vars : List String
  var_name : String
  value_name : String
  deriving DecidableEq, Repr

/-- The `TransformationConfig` dataclass with its declared field types and
defaults. -/
structure TransformationConfig where
  clean_column_names : Bool := false
  columnnames : Option (List (String × String)) := none
  datetime : Option (List (String × String)) := none
  datatypes : Option (List (String × DType)) := none
  reshape : Option ReshapeSpec := none
  replace_values : Option (List (String × List (Cell × Cell))) := none
  forward_fill_column : Option String := none
  entry_correction : Bool := false
  add_columns : Option (List (String × List (String × String))) := none
  deriving DecidableEq, Repr

/-- A value of a transformation-config dict entry, tagged with the shape the
corresponding dataclass field declares. -/
inductive TParam where
  | pbool : Bool → TParam
  | pstr : String → TParam
  | pstrMap : List (String × String) → TParam
  | pdtypeMap : List (String × DType) → TParam
  | pcellMap : List (String × List (Cell × Cell)) → TParam
  | preshape : ReshapeSpec → TParam
  | pqueryMap : List (String × List (String × String)) → TParam
  deriving DecidableEq, Repr

/-- A transformation-config dict as the YAML loader hands it over: keys in
some order, at most one value per key. -/
abbrev TransformDict := List (String × TParam)

/-- The keyword parameters `TransformationConfig.__init__` accepts; any other
key raises `TypeError` in `TransformationConfig(**config)`. -/
def knownTransformKeys : List String :=
  ["clean_column_names", "columnnames", "datetime", "datatypes", "reshape",
   "replace_values", "forward_fill_column", "entry_correction", "add_columns"]

/-- Read a boolean field: absent keys take the dataclass default `false`. -/
def getBoolField (cfg : TransformDict) (k : String) : Option Bool :=
  match cfg.lookup k with
  | none => some false
  | some (.pbool b) => some b
  | some _ => none

/-- Read an optional field through a shape projection; absent keys take the
dataclass default `None`.  A value of the wrong shape is rejected here (the
dataclass stores it unchecked and Python fails later, at first use). -/
def getOptField (cfg : TransformDict) (k : String) (f : TParam → Option α) :
    Option (Option α) :=
  match cfg.lookup k with
  | none => some none
  | some p => (f p).map some

/-- `TransformationConfig(**config)`. -/
def parseConfig (cfg : TransformDict) : Option TransformationConfig :=
  if !(cfg.all (fun kv => knownTransformKeys.contains kv.1)) then none
  else
    match getBoolField cfg "clean_column_names",
        getOptField cfg "columnnames"
          (fun p => match p with | .pstrMap m => some m | _ => none),
        getOptField cfg "datetime"
          (fun p => match p with | .pstrMap m => some m | _ => none),
        getOptField cfg "datatypes"
          (fun p => match p with | .pdtypeMap m => some m | _ => none),
        getOptField cfg "reshape"
          (fun p => match p with | .preshape r => some r | _ => none),
        getOptField cfg "replace_values"
          (fun p => match p with | .pcellMap m => some m | _ => none),
        getOptField cfg "forward_fill_column"
          (fun p => match p with | .pstr s => some s | _ => none),
        getBoolField cfg "entry_correction",
        getOptField cfg "add_columns"
          (fun p => match p with | .pqueryMap m => some m | _ => none) with
    | some ccn, some cn, some dt, some dty, some rs, some rv, some ff,
        some ec, some ac =>
      some { clean_column_names := ccn, columnnames := cn, datetime := dt,
             datatypes := dty, reshape := rs, replace_values := rv,
             forward_fill_column := ff, entry_correction := ec,
             add_columns := ac }
    | _, _, _, _, _, _, _, _, _ => none

/-- `int(c)` digits accumulator. -/
def digitsToNat (l : List Char) : Nat :=
  l.foldl (fun acc c => acc * 10 + (c.toNat - '0'.toNat)) 0

/-- `float(s)` for the shapes the pipeline meets: optional sign, digits,
optional decimal fraction, surrounding whitespace ignored. -/
def parseFloat (s : String) : Option ℚ :=
  let t0 := trimChars s.data
  let signed : ℚ × List Char :=
    match t0 with
    | '-' :: r => (-1, r)
    | '+' :: r => (1, r)
    | r => (1, r)
  let intPart := signed.2.takeWhile Char.isDigit
  let rest := signed.2.dropWhile Char.isDigit
  match rest with
  | [] =>
    if intPart.isEmpty then none
    else some (signed.1 * (digitsToNat intPart : ℚ))
  | '.' :: frac =>
    if frac.all Char.isDigit && !(intPart.isEmpty && frac.isEmpty) then
      some (signed.1 *
        ((digitsToNat intPart : ℚ) + (digitsToNat frac : ℚ) / ((10 : ℚ) ^ frac.length)))
    else none
  | _ => none

/-- `astype(str)` on a raw cell (without a preceding `fillna`): NaN renders as
`"nan"`. -/
def cellToStrRaw : Cell → String
  | .na => "nan"
  | c => cellToStr c

/-- `astype(float)` on one cell. -/
def castFloat : Cell → Option Cell
  | .na => some .na
  | .num q => some (.num q)
  | .bool b => some (.num (if b then 1 else 0))
  | .str s => (parseFloat s).map .num
  | .date _ _ _ => none

/-- `astype(int)` on one cell: NaN cannot convert, floats truncate toward
zero, strings go through `int(s)`. -/
def parseIntStr (s : String) : Option Int :=
  let t0 := trimChars s.data
  let signed : Int × List Char :=
    match t0 with
    | '-' :: r => (-1, r)
    | '+' :: r => (1, r)
    | r => (1, r)
  if !signed.2.isEmpty && signed.2.all Char.isDigit then
    some (signed.1 * (digitsToNat signed.2 : Int))
  else none

/-- `astype(int)` on one cell. -/
def castInt : Cell → Option Cell
  | .na => none
  | .num q => some (.num (Int.tdiv q.num q.den : Int))
  | .bool b => some (.num (if b then 1 else 0))
  | .str s => (parseIntStr s).map (fun i => .num (i : ℚ))
  | .date _ _ _ => none

/-- Coerce one cell to a configured datatype. -/
def castTo : DType → Cell → Option Cell
  | .dfloat, c => castFloat c
  | .dint, c => castInt c
  | .dstr, c => some (.str (cellToStrRaw c))

/-- Rewrite the cells of one named column; `none` when the column is missing
(`KeyError`) or the rewrite of some cell fails. -/
def mapColumn (col : String) (f : Cell → Option Cell) (d : DataFrame) :
    Option DataFrame :=
  if d.columns.contains col then
    (d.rows.mapM (fun row => (d.columns.zip row).mapM (fun cw =>
      if cw.1 == col then f cw.2 else some cw.2))).map
      (fun rows => { d with rows := rows })
  else none

/-- One `replace_values` entry:
`data[column].apply(lambda x: replace_dict.get(x, x)).astype(float)`. -/
def replaceOneColumn (col : String) (rmap : List (Cell × Cell))
    (d : DataFrame) : Option DataFrame :=
  mapColumn col (fun c => castFloat ((rmap.lookup c).getD c)) d

/-- `_apply_value_replacements`: a no-op when `replace_values` is absent or an
empty (falsy) dict; otherwise each configured column in turn. -/
def _apply_value_replacements (d : DataFrame) (c : TransformationConfig) :
    Option DataFrame :=
  match c.replace_values with
  | none => some d
  | some maps =>
    if maps.isEmpty then some d
    else maps.foldlM (fun acc kv => replaceOneColumn kv.1 kv.2 acc) d

/-- Forward-fill pass over the rows of one column, carrying the last non-null
value. -/
def ffillRows (cols : List String) (col : String) :
    Option Cell → List (List Cell) → List (List Cell)
  | _, [] => []
  | last, row :: rest =>
    match ((cols.zip row).lookup col).getD .na with
    | .na =>
      match last with
      | none => row :: ffillRows cols col none rest
      | some v =>
        ((cols.zip row).map (fun cw => if cw.1 == col then v else cw.2)) ::
          ffillRows cols col (some v) rest
    | c => row :: ffillRows cols col (some c) rest

/-- `_apply_forward_fill`: a no-op when `forward_fill_column` is absent or the
empty (falsy) string; `KeyError` (`none`) when the column is missing. -/
def _apply_forward_fill (d : DataFrame) (c : TransformationConfig) :
    Option DataFrame :=
  match c.forward_fill_column with
  | none => some d
  | some col =>
    if col == "" then some d
    else if d.columns.contains col then
      some { d with rows := ffillRows d.columns col none d.rows }
    else none

/-- `_apply_entry_corrections`: in rows whose first cell equals
`"German aid to Ukraine"`, overwrite positional column 3 with `18.08`;
`iloc` raises (`none`) when the frame has no positional column 3. -/
def _apply_entry_corrections (d : DataFrame) (c : TransformationConfig) :
    Option DataFrame :=
  if c.entry_correction then
    if d.columns.length ≤ 3 then none
    else some { d with rows := d.rows.map (fun row =>
      if row.getD 0 .na == .str "German aid to Ukraine" then
        row.set 3 (.num (1808 / 100)) else row) }
  else some d

/-- `_apply_datatypes` (`data.astype(config.datatypes)`): a no-op for an
absent or empty dict; every dict key must name an existing column. -/
def _apply_datatypes (d : DataFrame) (c : TransformationConfig) :
    Option DataFrame :=
  match c.datatypes with
  | none => some d
  | some m =>
    if m.isEmpty then some d
    else if m.all (fun kv => d.columns.contains kv.1) then
      (d.rows.mapM (fun row => (d.columns.zip row).mapM (fun (cw : String × Cell) =>
        match m.lookup cw.1 with
        | none => some cw.2
        | some ty => castTo ty cw.2))).map
        (fun rows => { d with rows := rows })
    else none

/-- Month-abbreviation table for the `%b` directive. -/
def monthAbbrevs : List (String × Nat) :=
  [("Jan", 1), ("Feb", 2), ("Mar", 3), ("Apr", 4), ("May", 5), ("Jun", 6),
   ("Jul", 7), ("Aug", 8), ("Sep", 9), ("Oct", 10), ("Nov", 11), ("Dec", 12)]

/-- Full month names for the `%B` directive. -/
def monthNames : List (String × Nat) :=
  [("January", 1), ("February", 2), ("March", 3), ("April", 4), ("May", 5),
   ("June", 6), ("July", 7), ("August", 8), ("September", 9), ("October", 10),
   ("November", 11), ("December", 12)]

/-- Parsed date fields with `strptime` defaults. -/
structure DateParts where
  year : Nat := 1900
  month : Nat := 1
  day : Nat := 1
  deriving DecidableEq, Repr

/-- Consume up to `maxN` leading digits. -/
def takeDigitsUpTo (maxN : Nat) (l : List Char) : Option (Nat × List Char) :=
  let ds := (l.takeWhile Char.isDigit).take maxN
  if ds.isEmpty then none
  else some (digitsToNat ds, l.drop ds.length)

/-- Match one of the table's names as a prefix of the input. -/
def matchPrefixIn (tbl : List (String × Nat)) (l : List Char) :
    Option (Nat × List Char) :=
  match tbl with
  | [] => none
  | (name, v) :: rest =>
    if name.data.isPrefixOf l then some (v, l.drop name.data.length)
    else matchPrefixIn rest l

/-- `datetime.strptime` over the directives the pipeline's formats use
(`%Y %y %m %d %b %B %%` and literal characters); strict — any mismatch or
unconverted trailing input fails. -/
def strptimeAux : List Char → List Char → DateParts → Option DateParts
  | [], [], p => some p
  | [], _ :: _, _ => none
  | '%' :: d :: fmt, inp, p =>
    if d == 'Y' then
      match takeDigitsUpTo 4 inp with
      | some (v, rest) => strptimeAux fmt rest { p with year := v }
      | none => none
    else if d == 'y' then
      match takeDigitsUpTo 2 inp with
      | some (v, rest) =>
        strptimeAux fmt rest
          { p with year := if v ≤ 68 then 2000 + v else 1900 + v }
      | none => none
    else if d == 'm' then
      match takeDigitsUpTo 2 inp with
      | some (v, rest) =>
        if 1 ≤ v ∧ v ≤ 12 then strptimeAux fmt rest { p with month := v }
        else none
      | none => none
    else if d == 'd' then
      match takeDigitsUpTo 2 inp with
      | some (v, rest) =>
        if 1 ≤ v ∧ v ≤ 31 then strptimeAux fmt rest { p with day := v }
        else none
      | none => none
    else if d == 'b' then
      match matchPrefixIn monthAbbrevs inp with
      | some (v, rest) => strptimeAux fmt rest { p with month := v }
      | none => none
    else if d == 'B' then
      match matchPrefixIn monthNames inp with
      | some (v, rest) => strptimeAux fmt rest { p with month := v }
      | none => none
    else if d == '%' then
      match inp with
      | i :: rest => if i == '%' then strptimeAux fmt rest p else none
      | [] => none
    else none
  | c :: fmt, i :: rest, p => if c == i then strptimeAux fmt rest p else none
  | _ :: _, [], _ => none

/-- `pd.to_datetime(cell, format=fmt)`: NaN stays NaT, already-parsed dates
pass through, strings parse strictly, anything else raises. -/
def toDatetimeCell (fmt : String) : Cell → Option Cell
  | .na => some .na
  | .date y m d => some (.date y m d)
  | .str s =>
    (strptimeAux fmt.data s.data {}).map (fun p => .date p.year p.month p.day)
  | _ => none

/-- `_apply_datetime_conversion`: per configured column, strict datetime
parsing against the caller's format. -/
def _apply_datetime_conversion (d : DataFrame) (c : TransformationConfig) :
    Option DataFrame :=
  match c.datetime with
  | none => some d
  | some maps =>
    if maps.isEmpty then some d
    else maps.foldlM (fun acc kv => mapColumn kv.1 (toDatetimeCell kv.2) acc) d

/-- `_apply_column_renames`: rename via the map, unmapped names pass
through. -/
def _apply_column_renames (d : DataFrame) (c : TransformationConfig) :
    Option DataFrame :=
  match c.columnnames with
  | none => some d
  | some m =>
    if m.isEmpty then some d
    else some { d with columns := d.columns.map (fun col => (m.lookup col).getD col) }

/-- One column name through
`lower → replace(\s+, "_", regex=True) → remove [^a-z0-9_] → strip("_")`. -/
def cleanColumnName (s : String) : String :=
  let lowered := s.data.map Char.toLower
  let underscored := collapseRunsAux '_' lowered.length lowered
  let filtered := underscored.filter
    (fun c => (('a' ≤ c && c ≤ 'z') || c.isDigit || c == '_'))
  String.mk (((filtered.dropWhile (· == '_')).reverse.dropWhile (· == '_')).reverse)

/-- `_clean_column_names`. -/
def _clean_column_names (d : DataFrame) (c : TransformationConfig) :
    Option DataFrame :=
  if c.clean_column_names then
    some { d with columns := d.columns.map cleanColumnName }
  else some d

/-- `_reshape_data` (`pd.melt`): block per value column, id values first, then
the variable name and the value; missing id/value columns raise `KeyError`. -/
def _reshape_data (d : DataFrame) (c : TransformationConfig) :
    Option DataFrame :=
  match c.reshape with
  | none => some d
  | some r =>
    if r.rtype == "melt" then
      if r.id_vars.all d.columns.contains && r.value_vars.all d.columns.contains then
        some { columns := r.id_vars ++ [r.var_name, r.value_name]
               rows := (r.value_vars.map (fun v =>
                 d.rows.map (fun row =>
                   r.id_vars.map
                     (fun idc => ((d.columns.zip row).lookup idc).getD .na) ++
                   [Cell.str v, ((d.columns.zip row).lookup v).getD .na]))).flatten }
      else none
    else some d

/-- A SQL execution oracle: the behaviour of
`connection.execute(q).fetchdf()` given the query text and the catalog state;
`none` models a raised exception. -/
abbrev SqlExec := String → Store → Option DataFrame

/-- `DROP VIEW IF EXISTS name` followed by `DROP TABLE IF EXISTS name`. -/
def dropAlias (st : Store) (name : String) : Store :=
  { views := st.views.filter (fun kv => kv.1 != name)
    tables := st.tables.filter (fun kv => kv.1 != name) }

/-- The `for column_config in config.add_columns.values()` loop: every query
runs against the same catalog (the registered view keeps the originally
registered frame), each result replaces the local frame. -/
def runAddColumnQueries (exec : SqlExec) (st : Store) :
    List (String × List (String × String)) → DataFrame → Option DataFrame
  | [], d => some d
  | (_, colCfg) :: rest, _ =>
    match colCfg.lookup "join_query" with
    | none => none
    | some q =>
      match exec q st with
      | none => none
      | some d' => runAddColumnQueries exec st rest d'

/-- `ETLPipeline._add_columns_from_sql`: early return on a falsy
`add_columns`; otherwise register the frame as `temp_transform_table`, run the
queries, and drop the alias in `finally` — on the success and on the failure
path alike.  Returns the resulting frame (`none` when a query raised) together
with the catalog after the `finally` block. -/
def _add_columns_from_sql (exec : SqlExec) (st : Store) (d : DataFrame)
    (c : TransformationConfig) : Option DataFrame × Store :=
  match c.add_columns with
  | none => (some d, st)
  | some qs =>
    if qs.isEmpty then (some d, st)
    else
      (runAddColumnQueries exec (registerView st "temp_transform_table" d) qs d,
       dropAlias (registerView st "temp_transform_table" d) "temp_transform_table")

/-- The `TransformationType` enumeration. -/
inductive TransformationType where
  | MELT : TransformationType
  | CLEAN : TransformationType
  | RENAME : TransformationType
  | REPLACE : TransformationType
  | FORWARD_FILL : TransformationType
  | CORRECT : TransformationType
  | DATATYPE : TransformationType
  | DATETIME : TransformationType
  | ADD_COLUMNS : TransformationType
  deriving DecidableEq, Repr

/-- The `transformers` dict of `_transform` in its insertion (= iteration)
order — a Python `dict` iterates in insertion order. -/
def transformersOrder : List TransformationType :=
  [.REPLACE, .FORWARD_FILL, .CORRECT, .DATATYPE, .DATETIME, .RENAME, .CLEAN,
   .MELT, .ADD_COLUMNS]

/-- Dispatch one transformer; only `ADD_COLUMNS` touches the catalog. -/
def applyTransformer (exec : SqlExec) (t : TransformationType)
    (c : TransformationConfig) : DataFrame × Store → Option (DataFrame × Store)
  | (d, st) =>
    match t with
    | .REPLACE => (_apply_value_replacements d c).map (·, st)
    | .FORWARD_FILL => (_apply_forward_fill d c).map (·, st)
    | .CORRECT => (_apply_entry_corrections d c).map (·, st)
    | .DATATYPE => (_apply_datatypes d c).map (·, st)
    | .DATETIME => (_apply_datetime_conversion d c).map (·, st)
    | .RENAME => (_apply_column_renames d c).map (·, st)
    | .CLEAN => (_clean_column_names d c).map (·, st)
    | .MELT => (_reshape_data d c).map (·, st)
    | .ADD_COLUMNS =>
      match _add_columns_from_sql exec st d c with
      | (some d', st') => some (d', st')
      | (none, _) => none

/-- `ETLPipeline._transform`: build the dataclass from the config dict, then
fold over the `transformers` dict in its fixed iteration order. -/
def _transform (exec : SqlExec) (st : Store) (data : DataFrame)
    (cfg : TransformDict) : Option (DataFrame × Store) :=
  match parseConfig cfg with
  | none => none
  | some c =>
    transformersOrder.foldlM (fun s t => applyTransformer exec t c s) (data, st)

/-! `PipelineValidator` (pipeline_validation.py). -/

/-- The metadata payload appended with a validation-log entry; filesystem-only
values (hashes, timestamps) are carried as the parameters that produce them. -/
inductive ValMetadata where
  | source : String → Nat → List String → ValMetadata
  | config : Nat → Nat → ValMetadata
  | extracted : String → Nat → Nat → List String → List (String × Nat) → Nat →
      ValMetadata
  | database : List String → ValMetadata
  deriving DecidableEq, Repr

/-- One entry of `PipelineValidator.validation_log`. -/
structure LogEntry where
  step : String
  table : Option String := none
  status : String
  metadata : ValMetadata
  deriving DecidableEq, Repr

/-- The validator's mutable state: the append-only `validation_log`. -/
structure ValidatorState where
  validation_log : List LogEntry := []
  deriving DecidableEq, Repr

/-- `PipelineValidator.validate_source_file`.  The filesystem is supplied as
parameters: whether the file exists, its stat size, and the outcome of
`pd.ExcelFile(path).sheet_names`.  On failure the state is returned unchanged
(the `raise` precedes the log append). -/
def validate_source_file (v : ValidatorState) (excel_path : String)
    (fileExists : Bool) (fileSize : Nat)
    (sheetsResult : Except String (List String)) :
    ValidatorState × Except String ValMetadata :=
  if !fileExists then
    (v, .error (s!"Source file not found: {excel_path}"))
  else
    match sheetsResult with
    | .error e => (v, .error (s!"Failed to read Excel file: {e}"))
    | .ok sheets =>
      let md := ValMetadata.source excel_path fileSize sheets
      ({ validation_log := v.validation_log ++
          [{ step := "source_validation", status := "passed", metadata := md }] },
       .ok md)

/-- `PipelineValidator.validate_config_integrity`.  The parsed YAML is a list
of sheets, each either not a dict (`none`) or a dict with its (defaulted)
`read` flag. -/
def validate_config_integrity (v : ValidatorState) (configExists : Bool)
    (config : List (Option Bool)) :
    ValidatorState × Except String ValMetadata :=
  if !configExists then (v, .error "Config file not found")
  else
    let md := ValMetadata.config config.length
      (config.filter (fun s => s == some true)).length
    ({ validation_log := v.validation_log ++
        [{ step := "config_validation", status := "passed", metadata := md }] },
     .ok md)

/-- Null count per column, `df.isnull().sum().to_dict()`. -/
def dfNullCounts (d : DataFrame) : List (String × Nat) :=
  d.columns.enum.map (fun p =>
    (p.2, (d.rows.filter (fun r => r.getD p.1 .na == Cell.na)).length))

/-- `df.duplicated().sum()`: rows that repeat an earlier row. -/
def duplicateRowCount (rows : List (List Cell)) : Nat :=
  rows.length - rows.dedup.length

/-- `PipelineValidator.validate_extracted_data`: builds the quality metadata,
raises `DataValidationError(f"Table {table_name} is empty")` on a zero-row
frame — before anything is appended to the log — and otherwise appends a
`passed` entry. -/
def validate_extracted_data (v : ValidatorState) (table_name : String)
    (df : DataFrame) : ValidatorState × Except String ValMetadata :=
  if df.rows.length == 0 then
    (v, .error (s!"Table {table_name} is empty"))
  else
    let md := ValMetadata.extracted table_name df.rows.length df.columns.length
      df.columns (dfNullCounts df) (duplicateRowCount df.rows)
    ({ validation_log := v.validation_log ++
        [{ step := "data_extraction_validation", table := some table_name,
           status := "passed", metadata := md }] },
     .ok md)

/-- `PipelineValidator.validate_database_integrity` over the catalog the
database file holds. -/
def validate_database_integrity (v : ValidatorState) (dbExists : Bool)
    (st : Store) : ValidatorState × Except String ValMetadata :=
  if !dbExists then (v, .error "Database not found")
  else
    let md := ValMetadata.database (st.tables.map Prod.fst)
    ({ validation_log := v.validation_log ++
        [{ step := "database_validation", status := "passed", metadata := md }] },
     .ok md)

/-- One validator invocation together with the environment it observes. -/
inductive ValCall where
  | source : String → Bool → Nat → Except String (List String) → ValCall
  | config : Bool → List (Option Bool) → ValCall
  | extracted : String → DataFrame → ValCall
  | database : Bool → Store → ValCall

/-- Apply one call, keeping whatever state it leaves behind (a raise leaves
the log untouched). -/
def applyValCall (v : ValidatorState) : ValCall → ValidatorState
  | .source p e s r => (validate_source_file v p e s r).1
  | .config e c => (validate_config_integrity v e c).1
  | .extracted n df => (validate_extracted_data v n df).1
  | .database e st => (validate_database_integrity v e st).1

/-- Run an arbitrary sequence of validator calls. -/
def runValCalls (v : ValidatorState) : List ValCall → ValidatorState
  | [] => v
  | c :: rest => runValCalls (applyValCall v c) rest

/-- Modelled from the spec: no module under `Code/` wires `PipelineValidator`
into `ETLPipeline.run`; §2 of the spec places the post-extraction check
between extraction and load ("Extractor → TransformEngine → Loader, with
Validator checks bracketing extraction and load").  This composes the source
functions exactly in that order: a validation failure aborts before the
transform and the load. -/
def runSheetWithValidation (v : ValidatorState) (st : Store) (g : Grid)
    (numberHeaderRows : Nat) (exec : SqlExec) (cfg : TransformDict)
    (loadName : String) :
    ValidatorState × Store × Except String Unit :=
  match validate_extracted_data v loadName (_extract g numberHeaderRows) with
  | (v', .error e) => (v', st, .error e)
  | (v', .ok _) =>
    match _transform exec st (_extract g numberHeaderRows) cfg with
    | none => (v', st, .error "TransformError")
    | some (d, st') =>
      match _load st' d loadName with
      | none => (v', st', .error "LoadError")
      | some st'' => (v', st'', .ok ())

/-! `PipelineMonitor.track_step` (pipeline_monitoring.py). -/

/-- One step record of the execution log. -/
structure StepRecord where
  step_name : String
  start_time : String
  metadata : List (String × String)
  status : String
  error : Option String := none
  duration_seconds : Option ℚ := none
  end_time : Option String := none
  deriving DecidableEq, Repr

/-- The monitor's execution log, restricted to the `steps` list that
`track_step` mutates. -/
structure MonitorState where
  steps : List StepRecord := []
  deriving DecidableEq, Repr

/-- `PipelineMonitor.track_step`, the context manager shallow-embedded over
the body's outcome: build the running record, mark it `completed`, or on an
exception mark it `failed` with the message and re-raise; the `finally` block
stamps duration and end time and appends the record to the log in either
case, before the exception leaves the scope. -/
def track_step (m : MonitorState) (step_name : String)
    (metadata : List (String × String)) (start_time end_time : String)
    (duration : ℚ) (outcome : Except String Unit) :
    MonitorState × Except String Unit :=
  let base : StepRecord :=
    { step_name := step_name, start_time := start_time, metadata := metadata,
      status := "running" }
  let recorded :=
    match outcome with
    | .ok _ => { base with status := "completed" }
    | .error e => { base with status := "failed", error := some e }
  let finalized : StepRecord :=
    { recorded with duration_seconds := some duration, end_time := some end_time }
  ({ steps := m.steps ++ [finalized] }, outcome)

/-! `DataCache` (lazy_loader.py). -/

/-- One cache entry. -/
structure CacheEntry (α : Type) where
  data : α
  created_at : ℚ
  last_accessed : ℚ
  expires_at : ℚ
  deriving DecidableEq, Repr

/-- The TTL cache; `time.time()` is passed explicitly as `now`. -/
structure DataCache (α : Type) where
  cache : List (String × CacheEntry α) := []
  default_ttl : ℚ
  deriving DecidableEq, Repr

/-- `DataCache.get`: a hit only when not expired; an expired entry is deleted
on lookup (lazy eviction) and reported as missing. -/
def DataCache.get (c : DataCache α) (now : ℚ) (key : String) :
    Option α × DataCache α :=
  match c.cache.lookup key with
  | none => (none, c)
  | some e =>
    if e.expires_at < now then
      (none, { c with cache := c.cache.filter (fun kv => kv.1 != key) })
    else
      (some e.data, { c with cache := c.cache.map (fun kv =>
        if kv.1 == key then (kv.1, { kv.2 with last_accessed := now })
        else kv) })

/-- `ttl = ttl or self.default_ttl`: any falsy TTL (None or 0) becomes the
default. -/
def pyTtlOr (ttl : Option ℚ) (dflt : ℚ) : ℚ :=
  match ttl with
  | none => dflt
  | some t => if t == 0 then dflt else t

/-- `DataCache.set`: store with absolute expiry `now + ttl`, replacing any
entry under the same key. -/
def DataCache.set (c : DataCache α) (now : ℚ) (key : String) (data : α)
    (ttl : Option ℚ) : DataCache α :=
  { c with cache :=
      (key, { data := data, created_at := now, last_accessed := now,
              expires_at := now + pyTtlOr ttl c.default_ttl }) ::
        c.cache.filter (fun kv => kv.1 != key) }

/-- The dictionary `DataCache.get_stats` returns. -/
structure CacheStats where
  total_entries : Nat
  expired_entries : Nat
  memory_usage_approx : Nat
  deriving DecidableEq, Repr

/-- `DataCache.get_stats`; `strLen` supplies `len(str(entry["data"]))`. -/
def DataCache.get_stats (c : DataCache α) (now : ℚ) (strLen : α → Nat) :
    CacheStats :=
  { total_entries := c.cache.length
    expired_entries := (c.cache.filter (fun kv => kv.2.expires_at < now)).length
    memory_usage_approx := (c.cache.map (fun kv => strLen kv.2.data)).sum }

/-- Frames and a store for the Loader witness. -/
def witnessFrameA : DataFrame := ⟨["a"], [[Cell.str "x"]]⟩

def witnessFrameB : DataFrame := ⟨["b"], [[Cell.str "y"]]⟩

def witnessStore : Store :=
  ⟨[], [("t", witnessFrameA), ("zz_country_lookup", witnessFrameA)]⟩

/-- A SQL oracle whose every query raises. -/
def failExec : SqlExec := fun _ _ => none

/-- A transformation config holding a single SQL-augmentation query. -/
def witnessAddColsConfig : TransformationConfig :=
  { add_columns := some [("extra", [("join_query", "SELECT 1")])] }

/-- Config dicts for the transform witness, equal up to key order. -/
def witnessTransformDictA : TransformDict :=
  [("clean_column_names", .pbool true), ("forward_fill_column", .pstr "a")]

/-- The same config dict with its keys in the opposite order. -/
def witnessTransformDictB : TransformDict :=
  [("forward_fill_column", .pstr "a"), ("clean_column_names", .pbool true)]

theorem aggJoinCols_eq_map_range (ncols : Nat) (rows : List (List Cell)) :
    aggJoinCols ncols rows =
      (List.range ncols).map
        (fun j => joinSpace (rows.map (fun r => cellToStr (r.getD j .na)))) := by
  induction rows with
  | nil =>
    simp [aggJoinCols, joinSpace]
  | cons r rs ih =>
    cases rs with
    | nil => simp [aggJoinCols, joinSpace]
    | cons r' rs' =>
      simp only [aggJoinCols] at ih ⊢
      rw [ih]
      rw [List.zipWith_map_left, List.zipWith_map_right]
      rw [List.zipWith_same]
      apply List.map_congr_left
      intro j hj
      simp [joinSpace]

/-- C4 (amended): each output column's header equals the first `n` cells of
that column (missing cells replaced by the empty string), joined by single
spaces, with leading/trailing whitespace trimmed and then every literal
occurrence of the three-character substring `\s+` replaced by a space; internal
whitespace runs are NOT collapsed, because the source omits `regex=True` in
`_extract` and the pandas default is a literal replacement. -/
theorem extract_header_composition (g : Grid) (n j : Nat) (h : j < g.ncols) :
    (_extract g n).columns.getD j "" =
      pyReplaceLit "\\s+" " " (pyStrip
        (joinSpace ((g.rows.take n).map (fun r => cellToStr (r.getD j .na))))) := by
  show ((aggJoinCols g.ncols (g.rows.take n)).map
      (fun s => pyReplaceLit "\\s+" " " (pyStrip s))).getD j "" = _
  rw [aggJoinCols_eq_map_range, List.map_map]
  rw [List.getD_eq_getElem?_getD, List.getElem?_map, List.getElem?_range h]
  rfl

/-- C4 fails as stated on the source: with one header row `["A  B"]` the code
keeps the internal double space (`str.replace` is literal, not a regex), while
the spec's collapsed-and-trimmed rule would produce `"A B"`. -/
theorem extract_header_collapse_counterexample :
    (_extract ⟨1, [[Cell.str "A  B"]]⟩ 1).columns.getD 0 "" = "A  B" ∧
    headerPerSpec ⟨1, [[Cell.str "A  B"]]⟩ 1 0 = "A B" ∧
    ¬ (_extract ⟨1, [[Cell.str "A  B"]]⟩ 1).columns.getD 0 "" =
        headerPerSpec ⟨1, [[Cell.str "A  B"]]⟩ 1 0 := by
  decide

/-- Witness for `extract_header_composition`: the spec's own example, header
rows `["Country", ·]` and `[·, "Jan 2022"]` with two header rows, yields the
column headers `"Country"` and `"Jan 2022"`. -/
theorem extract_header_composition_witness :
    (0 < 2 ∧
      (_extract ⟨2, [[Cell.str "Country", Cell.na],
        [Cell.na, Cell.str "Jan 2022"]]⟩ 2).columns.getD 0 "" = "Country") ∧
    (1 < 2 ∧
      (_extract ⟨2, [[Cell.str "Country", Cell.na],
        [Cell.na, Cell.str "Jan 2022"]]⟩ 2).columns.getD 1 "" = "Jan 2022") := by
  constructor
  · refine ⟨by decide, ?_⟩
    rw [extract_header_composition _ _ _ (by decide)]
    decide
  · refine ⟨by decide, ?_⟩
    rw [extract_header_composition _ _ _ (by decide)]
    decide

/-- C2: for every row produced by the country-lookup builder,
`geographic_europe` is true iff the country appears in the `Geographic_Europe`
category or is an EU member; in particular EU membership implies
`geographic_europe`. -/
theorem country_lookup_geographic_europe_invariant
    (tax : CountryTaxonomy) (rows : List CountryRow) (geoList : List String)
    (hgeo : (categoryLists tax).lookup "Geographic_Europe" = some geoList)
    (h : _create_country_lookup tax = some rows) :
    rows.all (fun row =>
      (row.geographic_europe ==
        (geoList.contains row.country_name || row.eu_member)) &&
      (!row.eu_member || row.geographic_europe)) = true := by
  unfold _create_country_lookup at h
  cases heu : (categoryLists tax).lookup "EU_Member" with
  | none => rw [heu] at h; simp at h
  | some euList =>
    rw [heu, hgeo] at h
    simp only [Option.some.injEq] at h
    subst h
    rw [List.all_eq_true]
    intro row hrow
    rw [List.mem_map] at hrow
    obtain ⟨p, _, rfl⟩ := hrow
    simp only
    cases hg : geoList.contains p.2 <;> cases he : euList.contains p.2 <;> rfl

/-- Witness for `country_lookup_geographic_europe_invariant` at a concrete
three-country taxonomy. -/
theorem country_lookup_geographic_europe_witness :
    (((_create_country_lookup witnessTaxonomy).getD []).all (fun row =>
      (row.geographic_europe ==
        ((["Norway"] : List String).contains row.country_name ||
          row.eu_member)) &&
      (!row.eu_member || row.geographic_europe))) = true :=
  country_lookup_geographic_europe_invariant witnessTaxonomy
    ((_create_country_lookup witnessTaxonomy).getD []) ["Norway"]
    (by decide) (by decide)

/-! Helper lemmas and the remaining claim theorems. -/

theorem lookup_filter_ne {α : Type} (l : List (String × α)) (n : String) :
    (l.filter (fun kv => kv.1 != n)).lookup n = none := by
  induction l with
  | nil => rfl
  | cons x rest ih =>
    rw [List.filter_cons]
    by_cases h : x.1 = n
    · simp [h, ih]
    · have hb : (x.1 != n) = true := by simp [h]
      rw [if_pos hb]
      have hn : (n == x.1) = false := by
        simp only [beq_eq_false_iff_ne, ne_eq]
        exact fun e => h e.symm
      simp [List.lookup, hn, ih]

/-- C1 fails as stated: loading under a name that already exists in the store
raises a catalog error instead of replacing the prior table. -/
theorem load_existing_table_counterexample :
    _load ⟨[], [("t", ⟨["a"], [[Cell.str "x"]]⟩)]⟩ ⟨["a"], [[Cell.str "y"]]⟩ "t"
      = none := rfl

/-- C1 (amended): the Loader writes the table into the store under the
configured name when no table of that name exists; when one already exists the
plain `CREATE TABLE` raises instead of overwriting, and the country-lookup
initialization fails the same way when `zz_country_lookup` is already
present. -/
theorem load_create_table_semantics (st : Store) (d : DataFrame) (n : String)
    (tax : CountryTaxonomy) :
    (st.tables.lookup n = none →
      _load st d n =
        some { views := (n, d) :: st.views.filter (fun kv => kv.1 != n)
               tables := (n, d) :: st.tables }) ∧
    ((st.tables.lookup n).isSome = true → _load st d n = none) ∧
    ((st.tables.lookup "zz_country_lookup").isSome = true →
      _init_country_lookup tax st = none) := by
  refine ⟨?_, ?_, ?_⟩
  · intro h
    unfold _load createTableAs registerView resolveRelation
    simp [h, List.lookup]
  · intro h
    unfold _load createTableAs registerView
    simp [h]
  · intro h
    unfold _init_country_lookup
    cases hc : _create_country_lookup tax with
    | none => rfl
    | some rows =>
      unfold createTableAs registerView
      simp [h]

/-- Witness for `load_create_table_semantics`: a fresh name is created and
stored; occupied names make the load and the lookup initialization fail. -/
theorem load_create_table_semantics_witness :
    _load witnessStore witnessFrameB "u" =
      some { views := ("u", witnessFrameB) ::
               witnessStore.views.filter (fun kv => kv.1 != "u")
             tables := ("u", witnessFrameB) :: witnessStore.tables } ∧
    _load witnessStore witnessFrameB "t" = none ∧
    _init_country_lookup witnessTaxonomy witnessStore = none := by
  refine ⟨?_, ?_, ?_⟩
  · exact (load_create_table_semantics witnessStore witnessFrameB "u"
      witnessTaxonomy).1 rfl
  · exact (load_create_table_semantics witnessStore witnessFrameB "t"
      witnessTaxonomy).2.1 rfl
  · exact (load_create_table_semantics witnessStore witnessFrameB "t"
      witnessTaxonomy).2.2 rfl

/-- C5: with a truthy `add_columns` configuration, the `finally` block drops
the temporary alias on every exit path, so after `_add_columns_from_sql`
returns or fails, `temp_transform_table` resolves to nothing in the catalog —
for any query outcome `exec` produces. -/
theorem add_columns_alias_dropped (exec : SqlExec) (st : Store) (d : DataFrame)
    (c : TransformationConfig) (qs : List (String × List (String × String)))
    (hq : c.add_columns = some qs) (hne : qs.isEmpty = false) :
    resolveRelation (_add_columns_from_sql exec st d c).2 "temp_transform_table"
      = none := by
  unfold _add_columns_from_sql
  rw [hq]
  simp only [hne, Bool.false_eq_true, if_false]
  simp [resolveRelation, dropAlias, lookup_filter_ne]

/-- Witness for `add_columns_alias_dropped`: even when the query raises, the
alias is gone afterwards. -/
theorem add_columns_alias_dropped_witness :
    resolveRelation
      (_add_columns_from_sql failExec ⟨[], []⟩ witnessFrameA
        witnessAddColsConfig).2 "temp_transform_table" = none :=
  add_columns_alias_dropped failExec ⟨[], []⟩ witnessFrameA
    witnessAddColsConfig [("extra", [("join_query", "SELECT 1")])] rfl rfl

theorem lookup_eq_of_perm_nodupkeys {α : Type} {l₁ l₂ : List (String × α)}
    (hp : l₁.Perm l₂) :
    (l₁.map Prod.fst).Nodup → ∀ k, l₁.lookup k = l₂.lookup k := by
  induction hp with
  | nil => intro _ _; rfl
  | cons x hpt ih =>
    intro hnd k
    obtain ⟨a, b⟩ := x
    rw [List.map_cons, List.nodup_cons] at hnd
    cases hka : (k == a) <;> simp [List.lookup, hka, ih hnd.2 k]
  | swap x y l =>
    intro hnd k
    obtain ⟨a, b⟩ := x
    obtain ⟨a', b'⟩ := y
    rw [List.map_cons, List.map_cons, List.nodup_cons] at hnd
    have hne : ¬a' = a :=
      fun e => hnd.1 (by rw [e]; exact List.mem_cons_self _ _)
    cases hka : (k == a) <;> cases hka' : (k == a')
    · simp only [List.lookup, hka, hka']
    · simp only [List.lookup, hka, hka']
    · simp only [List.lookup, hka, hka']
    · have h1 : k = a := by simpa using hka
      have h2 : k = a' := by simpa using hka'
      exact absurd (h2.symm.trans h1) hne
  | trans h1 _ ih1 ih2 =>
    intro hnd k
    exact (ih1 hnd k).trans
      (ih2 (((h1.map Prod.fst).nodup_iff).mp hnd) k)

theorem all_eq_of_perm {α : Type} {l₁ l₂ : List α} (hp : l₁.Perm l₂)
    (p : α → Bool) : l₁.all p = l₂.all p := by
  cases h2 : l₂.all p
  · cases h1 : l₁.all p
    · rfl
    · rw [List.all_eq_true] at h1
      have hx : l₂.all p = true := List.all_eq_true.mpr
        (fun x hx => h1 x (hp.mem_iff.mpr hx))
      rw [h2] at hx
      exact hx.symm
  · rw [List.all_eq_true] at h2
    exact List.all_eq_true.mpr (fun x hx => h2 x (hp.mem_iff.mp hx))

theorem parseConfig_eq_of_perm {cfg cfg' : TransformDict} (hp : cfg.Perm cfg')
    (hnd : (cfg.map Prod.fst).Nodup) :
    parseConfig cfg = parseConfig cfg' := by
  have hl := lookup_eq_of_perm_nodupkeys hp hnd
  unfold parseConfig getBoolField getOptField
  rw [all_eq_of_perm hp, hl "clean_column_names", hl "columnnames",
      hl "datetime", hl "datatypes", hl "reshape", hl "replace_values",
      hl "forward_fill_column", hl "entry_correction", hl "add_columns"]

/-- C3: the transform engine applies its operators in one fixed sequence,
independent of the order of the configuration dict's keys: value replacement,
then forward fill, then the single-row entry correction, then datatype
coercion, then datetime parsing, then column renaming, then column-name
cleaning, then the melt, then SQL-based column augmentation last. -/
theorem transform_fixed_operator_sequence (exec : SqlExec) (st : Store)
    (data : DataFrame) (cfg cfg' : TransformDict) (hp : cfg.Perm cfg')
    (hnd : (cfg.map Prod.fst).Nodup) :
    _transform exec st data cfg =
      match parseConfig cfg' with
      | none => none
      | some c =>
        (_apply_value_replacements data c).bind fun d1 =>
        (_apply_forward_fill d1 c).bind fun d2 =>
        (_apply_entry_corrections d2 c).bind fun d3 =>
        (_apply_datatypes d3 c).bind fun d4 =>
        (_apply_datetime_conversion d4 c).bind fun d5 =>
        (_apply_column_renames d5 c).bind fun d6 =>
        (_clean_column_names d6 c).bind fun d7 =>
        (_reshape_data d7 c).bind fun d8 =>
        (match _add_columns_from_sql exec st d8 c with
         | (some d9, st') => some (d9, st')
         | (none, _) => none) := by
  unfold _transform
  rw [parseConfig_eq_of_perm hp hnd]
  cases parseConfig cfg' with
  | none => rfl
  | some c =>
    simp only [transformersOrder, List.foldlM, applyTransformer]
    cases h1 : _apply_value_replacements data c with
    | none =>
      simp only [h1, Option.bind_eq_bind, Option.map_none', Option.map_some',
        Option.none_bind]
    | some d1 =>
      simp only [h1, Option.bind_eq_bind, Option.map_some', Option.map_none',
        Option.some_bind]
      cases h2 : _apply_forward_fill d1 c with
      | none =>
        simp only [h2, Option.bind_eq_bind, Option.map_none', Option.map_some',
          Option.none_bind]
      | some d2 =>
        simp only [h2, Option.bind_eq_bind, Option.map_some', Option.map_none',
          Option.some_bind]
        cases h3 : _apply_entry_corrections d2 c with
        | none =>
          simp only [h3, Option.bind_eq_bind, Option.map_none', Option.map_some',
            Option.none_bind]
        | some d3 =>
          simp only [h3, Option.bind_eq_bind, Option.map_some', Option.map_none',
            Option.some_bind]
          cases h4 : _apply_datatypes d3 c with
          | none =>
            simp only [h4, Option.bind_eq_bind, Option.map_none', Option.map_some',
              Option.none_bind]
          | some d4 =>
            simp only [h4, Option.bind_eq_bind, Option.map_some', Option.map_none',
              Option.some_bind]
            cases h5 : _apply_datetime_conversion d4 c with
            | none =>
              simp only [h5, Option.bind_eq_bind, Option.map_none', Option.map_some',
                Option.none_bind]
            | some d5 =>
              simp only [h5, Option.bind_eq_bind, Option.map_some', Option.map_none',
                Option.some_bind]
              cases h6 : _apply_column_renames d5 c with
              | none =>
                simp only [h6, Option.bind_eq_bind, Option.map_none', Option.map_some',
                  Option.none_bind]
              | some d6 =>
                simp only [h6, Option.bind_eq_bind, Option.map_some', Option.map_none',
                  Option.some_bind]
                cases h7 : _clean_column_names d6 c with
                | none =>
                  simp only [h7, Option.bind_eq_bind, Option.map_none', Option.map_some',
                    Option.none_bind]
                | some d7 =>
                  simp only [h7, Option.bind_eq_bind, Option.map_some', Option.map_none',
                    Option.some_bind]
                  cases h8 : _reshape_data d7 c with
                  | none =>
                    simp only [h8, Option.bind_eq_bind, Option.map_none', Option.map_some',
                      Option.none_bind]
                  | some d8 =>
                    simp only [h8, Option.bind_eq_bind, Option.map_some', Option.map_none',
                      Option.some_bind]
                    cases h9 : _add_columns_from_sql exec st d8 c with
                    | mk od st2 =>
                      cases od <;> rfl

/-- Witness for `transform_fixed_operator_sequence`: permuting the keys of a
concrete config leaves the transform of a concrete frame unchanged. -/
theorem transform_fixed_operator_sequence_witness :
    _transform failExec ⟨[], []⟩ ⟨["a"], [[Cell.str "x"], [Cell.na]]⟩
        witnessTransformDictA =
      _transform failExec ⟨[], []⟩ ⟨["a"], [[Cell.str "x"], [Cell.na]]⟩
        witnessTransformDictB := by
  rw [transform_fixed_operator_sequence failExec ⟨[], []⟩
    ⟨["a"], [[Cell.str "x"], [Cell.na]]⟩ witnessTransformDictA
    witnessTransformDictB (by decide) (by decide)]
  rw [transform_fixed_operator_sequence failExec ⟨[], []⟩
    ⟨["a"], [[Cell.str "x"], [Cell.na]]⟩ witnessTransformDictB
    witnessTransformDictB (List.Perm.refl _) (by decide)]

/-- C6: an extracted table with zero rows makes post-extraction validation
raise the empty-table `DataValidationError` instead of logging a passed entry,
and the corresponding load never occurs — validator state and catalog are
exactly as before the sheet was processed. -/
theorem empty_extraction_aborts_before_load (v : ValidatorState) (st : Store)
    (g : Grid) (n : Nat) (exec : SqlExec) (cfg : TransformDict)
    (loadName : String) (h : g.rows.length ≤ n) :
    runSheetWithValidation v st g n exec cfg loadName =
      (v, st, .error (s!"Table {loadName} is empty")) := by
  have hrows : (_extract g n).rows.length = 0 := by
    simp [_extract, Nat.sub_eq_zero_of_le h]
  unfold runSheetWithValidation validate_extracted_data
  rw [hrows]
  rfl

/-- Witness for `empty_extraction_aborts_before_load` on an empty grid. -/
theorem empty_extraction_aborts_before_load_witness :
    runSheetWithValidation ⟨[]⟩ ⟨[], []⟩ ⟨1, []⟩ 0 failExec [] "t" =
      (⟨[]⟩, ⟨[], []⟩, .error "Table t is empty") :=
  empty_extraction_aborts_before_load ⟨[]⟩ ⟨[], []⟩ ⟨1, []⟩ 0 failExec [] "t"
    (by decide)

/-- C7: when the tracked scope raises, `track_step` re-raises the same
exception and has already appended a record marked `failed` carrying the error
message, the duration, and the end time; a scope that exits normally appends a
`completed` record. -/
theorem track_step_records_failure_and_reraises (m : MonitorState)
    (name : String) (meta : List (String × String)) (startT endT : String)
    (dur : ℚ) (e : String) :
    (track_step m name meta startT endT dur (.error e)).2 = .error e ∧
    (track_step m name meta startT endT dur (.error e)).1.steps =
      m.steps ++ [{ step_name := name, start_time := startT, metadata := meta,
                    status := "failed", error := some e,
                    duration_seconds := some dur, end_time := some endT }] ∧
    (track_step m name meta startT endT dur (.ok ())).1.steps =
      m.steps ++ [{ step_name := name, start_time := startT, metadata := meta,
                    status := "completed", error := none,
                    duration_seconds := some dur, end_time := some endT }] :=
  ⟨rfl, rfl, rfl⟩

/-- C8: a value set with a TTL is retrievable before the expiry time; after
the expiry time `get` returns the missing result, lazily evicts the entry, and
`get_stats().total_entries` decreases. -/
theorem cache_ttl_get_semantics {α : Type} (c : DataCache α) (key : String)
    (v : α) (ttl : Option ℚ) (now t1 t2 : ℚ) (strLen : α → Nat)
    (h1 : t1 < now + pyTtlOr ttl c.default_ttl)
    (h2 : now + pyTtlOr ttl c.default_ttl < t2) :
    ((c.set now key v ttl).get t1 key).1 = some v ∧
    ((c.set now key v ttl).get t2 key).1 = none ∧
    ((((c.set now key v ttl).get t2 key).2).get_stats t2 strLen).total_entries <
      ((c.set now key v ttl).get_stats t2 strLen).total_entries := by
  have hlk : (c.set now key v ttl).cache.lookup key =
      some { data := v, created_at := now, last_accessed := now,
             expires_at := now + pyTtlOr ttl c.default_ttl } := by
    simp [DataCache.set, List.lookup]
  refine ⟨?_, ?_, ?_⟩
  · unfold DataCache.get
    rw [hlk]
    simp only
    rw [if_neg (lt_asymm h1)]
  · unfold DataCache.get
    rw [hlk]
    simp only
    rw [if_pos h2]
  · unfold DataCache.get
    rw [hlk]
    simp only
    rw [if_pos h2]
    unfold DataCache.get_stats
    simp only [DataCache.set, List.filter_cons, bne_self_eq_false,
      Bool.false_eq_true, if_false, List.length_cons]
    exact Nat.lt_succ_of_le (List.length_filter_le _ _)

/-- Witness for `cache_ttl_get_semantics`: default TTL 600, `ttl=5` set at
time 0, read at times 3 and 9. -/
theorem cache_ttl_get_semantics_witness :
    (((⟨[], 600⟩ : DataCache String).set 0 "k" "v" (some 5)).get 3 "k").1 =
        some "v" ∧
    (((⟨[], 600⟩ : DataCache String).set 0 "k" "v" (some 5)).get 9 "k").1 =
        none ∧
    (((((⟨[], 600⟩ : DataCache String).set 0 "k" "v" (some 5)).get 9
          "k").2).get_stats 9 String.length).total_entries <
      ((((⟨[], 600⟩ : DataCache String).set 0 "k" "v"
          (some 5))).get_stats 9 String.length).total_entries :=
  cache_ttl_get_semantics ⟨[], 600⟩ "k" "v" (some 5) 0 3 9 String.length
    (by norm_num [pyTtlOr]) (by norm_num [pyTtlOr])

/-- C9: `set` with `ttl=0` stores the entry under the default TTL — the falsy
TTL is replaced in `ttl = ttl or self.default_ttl` — so the call is identical
to omitting the TTL and cannot create an immediately-expired entry. -/
theorem cache_set_zero_ttl_uses_default {α : Type} (c : DataCache α)
    (now : ℚ) (key : String) (v : α) :
    c.set now key v (some 0) = c.set now key v none ∧
    ((c.set now key v (some 0)).cache.lookup key).map
      (fun e => e.expires_at) = some (now + c.default_ttl) := by
  constructor
  · unfold DataCache.set pyTtlOr
    norm_num
  · unfold DataCache.set pyTtlOr
    simp [List.lookup]

theorem applyValCall_preserves_passed (v : ValidatorState) (call : ValCall)
    (h : v.validation_log.all (fun e => e.status == "passed") = true) :
    ((applyValCall v call).validation_log.all
      (fun e => e.status == "passed")) = true := by
  cases call with
  | source p e s r =>
    unfold applyValCall validate_source_file
    cases e
    · simpa using h
    · cases r with
      | error msg => simpa using h
      | ok sheets => simp [List.all_append, h]
  | config e cfgl =>
    unfold applyValCall validate_config_integrity
    cases e
    · simpa using h
    · simp [List.all_append, h]
  | extracted nm df =>
    unfold applyValCall validate_extracted_data
    by_cases hz : df.rows.length = 0
    · simp [hz, h]
    · simp [hz, List.all_append, h]
  | database e st =>
    unfold applyValCall validate_database_integrity
    cases e
    · simpa using h
    · simp [List.all_append, h]

/-- C10: every entry ever appended to the validator's append-only log has
status `"passed"`: each of the four checks raises its failure before appending
anything, so after any sequence of calls the log records only successful
checks. -/
theorem validator_log_only_passed (calls : List ValCall) :
    ((runValCalls ⟨[]⟩ calls).validation_log.all
      (fun e => e.status == "passed")) = true := by
  have main : ∀ w : ValidatorState,
      w.validation_log.all (fun e => e.status == "passed") = true →
      ((runValCalls w calls).validation_log.all
        (fun e => e.status == "passed")) = true := by
    induction calls with
    | nil => exact fun w hw => hw
    | cons cll rest ih =>
      intro w hw
      exact ih _ (applyValCall_preserves_passed w cll hw)
  exact main ⟨[]⟩ rfl
